import Mathlib

/-!
Shallow embedding of `control/latent_keyframe_nodes.py` from the
Steerable-Motion repository: the latent-keyframe collection, the textual
index/strength mini-language parser, the interpolation-curve generator and
the batched loader, together with proofs about the specified behaviour.

Python floats are modelled as `ℚ` (every concrete value appearing in the
verified properties is exactly representable), Python ints as `ℤ`, Python
exceptions as an explicit `Except` error monad.
-/

set_option autoImplicit false

/-- A Python exception, tagged by its class and message. -/
inductive PyError where
  | indexError (msg : String)
  | valueError (msg : String)
  | nameError (msg : String)
  deriving Repr, DecidableEq

/-- Modelled from the spec: the class `LatentKeyframeImport` lives in
`control/control.py`, which is not part of the sources; spec §3 describes it as
an immutable (frame index, strength) pair. -/
structure LatentKeyframeImport where
  batch_index : Int
  strength : ℚ
  deriving Repr, DecidableEq

/-- Modelled from the spec: the class `LatentKeyframeGroupImport` lives in
`control/control.py`, which is not part of the sources; spec §3/§4.1 describe
it as a mapping keyed by `frame_index` holding at most one keyframe per index,
with an insertion-ordered iteration surface `keyframes`. We store the
insertion-ordered list of keyframes. -/
structure LatentKeyframeGroupImport where
  keyframes : List LatentKeyframeImport
  deriving Repr, DecidableEq

/-- Modelled from the spec: §4.1 — `add(keyframe)` inserts if `frame_index` is
absent and otherwise is a silent no-op (first-writer-wins); no error on
duplicates. -/
def LatentKeyframeGroupImport.add (g : LatentKeyframeGroupImport)
    (k : LatentKeyframeImport) : LatentKeyframeGroupImport :=
  if g.keyframes.any (fun k2 => k2.batch_index == k.batch_index) then g
  else ⟨g.keyframes ++ [k]⟩

/-- Lookup of the stored keyframe at a frame index (the collection's
observable surface per spec §6: iterate frame index to strength pairs). -/
def LatentKeyframeGroupImport.get (g : LatentKeyframeGroupImport)
    (idx : Int) : Option LatentKeyframeImport :=
  g.keyframes.find? (fun k => k.batch_index == idx)

/-- Modelled from the spec: §9 — every entrypoint treats an absent-or-empty
previous collection as falsy (`if not prev_latent_keyframe`) and replaces it
with a freshly constructed empty one. -/
def groupOrFresh : Option LatentKeyframeGroupImport → LatentKeyframeGroupImport
  | none => ⟨[]⟩
  | some p => if p.keyframes.isEmpty then ⟨[]⟩ else p

/-! ### Python string primitives

The parser below works on `List Char`; these model the exact Python string
operations used by `convert_to_latent_keyframes`: `str.strip`,
`str.split(sep)` and `str.split(sep, 1)`. -/

/-- Python `str.strip()`: remove leading and trailing whitespace. -/
def pyStrip (cs : List Char) : List Char :=
  ((cs.dropWhile Char.isWhitespace).reverse.dropWhile Char.isWhitespace).reverse

/-- Python `str.split(sep)` for a one-character separator: full split,
keeping empty pieces. -/
def splitOnChar (sep : Char) : List Char → List (List Char)
  | [] => [[]]
  | c :: cs =>
    let r := splitOnChar sep cs
    if c == sep then [] :: r
    else
      match r with
      | [] => [[c]]
      | h :: t => (c :: h) :: t

/-- Python `str.split(sep, 1)` for a one-character separator: `none` when the
separator does not occur, otherwise the pieces before and after its first
occurrence.  `none` also models Python's `sep in s == False` test. -/
def splitFirstChar (sep : Char) : List Char → Option (List Char × List Char)
  | [] => none
  | c :: cs =>
    if c == sep then some ([], cs)
    else
      match splitFirstChar sep cs with
      | none => none
      | some (a, b) => some (c :: a, b)

/-- Value of a list of decimal digits (most significant first). -/
def digitsVal (cs : List Char) : Nat :=
  cs.foldl (fun a c => a * 10 + (c.toNat - 48)) 0

/-- Python `int(s)`: optional surrounding whitespace, optional sign, one or
more decimal digits; `none` models the `ValueError`. -/
def pyInt (cs : List Char) : Option Int :=
  let t := pyStrip cs
  match t with
  | '-' :: rest =>
    if rest ≠ [] ∧ rest.all Char.isDigit then some (-(digitsVal rest : Int)) else none
  | '+' :: rest =>
    if rest ≠ [] ∧ rest.all Char.isDigit then some (digitsVal rest : Int) else none
  | _ =>
    if t ≠ [] ∧ t.all Char.isDigit then some (digitsVal t : Int) else none

/-- Python `float(s)` restricted to the decimal forms the mini-language uses:
optional sign, digits with an optional single decimal point; `none` models the
`ValueError`. -/
def pyFloat (cs : List Char) : Option ℚ :=
  let t := pyStrip cs
  let su : ℚ × List Char :=
    match t with
    | '-' :: rest => (-1, rest)
    | '+' :: rest => (1, rest)
    | _ => (1, t)
  match splitFirstChar '.' su.2 with
  | none =>
    if su.2 ≠ [] ∧ su.2.all Char.isDigit then some (su.1 * (digitsVal su.2 : ℚ)) else none
  | some (a, b) =>
    if (a ≠ [] ∨ b ≠ []) ∧ a.all Char.isDigit ∧ b.all Char.isDigit then
      some (su.1 * ((digitsVal a : ℚ) + (digitsVal b : ℚ) / ((10 : ℚ) ^ b.length)))
    else none

/-- Python list slicing `xs[i:j]` with possibly negative bounds: a negative
bound counts from the end, and both bounds are clamped into `[0, len]`. -/
def pySlice {α : Type} (xs : List α) (i j : Int) : List α :=
  let len : Int := xs.length
  let s : Nat := if i < 0 then (len + i).toNat else min i.toNat xs.length
  let e : Nat := if j < 0 then (len + j).toNat else min j.toNat xs.length
  (xs.take e).drop s

/-! ### `LatentKeyframeGroupNodeImport`: the index/strength mini-language -/

/-- `LatentKeyframeGroupNodeImport.validate_index` (lines 56–72): range
endpoints pass through untouched; a plain index is bounds-checked against
`latent_count` and a negative plain index is either rejected or converted via
`latent_count + index`. -/
def LatentKeyframeGroupNodeImport.validate_index (index : Int) (latent_count : Int)
    ( is_range : Bool) (allow_negative : Bool) : Except PyError Int :=
  if is_range then .ok index
  else if latent_count > 0 ∧ index > latent_count - 1 then
    .error (.indexError "Index out of range for the total latents.")
  else if index < 0 then
    if ¬ allow_negative then
      .error (.indexError "Negative indeces not allowed.")
    else
      let conv_index := latent_count + index
      if conv_index < 0 then
        .error (.indexError "Index converted out of range for the total latents.")
      else .ok conv_index
  else .ok index

/-- `LatentKeyframeGroupNodeImport.convert_to_index_int` (lines 74–78):
`int(raw_index)` then `validate_index`; an unparsable token becomes a
`ValueError`. -/
def LatentKeyframeGroupNodeImport.convert_to_index_int (raw_index : List Char)
    (latent_count : Int) ( is_range : Bool) (allow_negative : Bool) :
    Except PyError Int :=
  match pyInt raw_index with
  | none => .error (.valueError "index must be an integer.")
  | some i => LatentKeyframeGroupNodeImport.validate_index i latent_count is_range allow_negative

/-- Set insertion for the parser's intermediate `set()` of keyframes:
membership is by the full (index, strength) pair (spec §9: set-dedup by full
value); iteration order is modelled as insertion order. -/
def setAdd (s : List LatentKeyframeImport) (k : LatentKeyframeImport) :
    List LatentKeyframeImport :=
  if k ∈ s then s else s ++ [k]

/-- One iteration of the group loop of `convert_to_latent_keyframes`
(lines 89–111).  The range branch reproduces line 108 exactly: the loop body
constructs entries via the undefined name `LatentKeyframImport` (a typo for
`LatentKeyframeImport`), so any range whose slice is non-empty raises a
`NameError` on its first iteration; an empty slice never enters the loop and
succeeds without adding anything. -/
def LatentKeyframeGroupNodeImport.processGroup (latent_count : Int)
    (all_indeces : List Int) (allow_negative : Bool)
    (chosen : List LatentKeyframeImport) (g0 : List Char) :
    Except PyError (List LatentKeyframeImport) := do
  let gs : List Char × ℚ ←
    match splitFirstChar '=' g0 with
    | none => .ok (g0, (1 : ℚ))
    | some (g1, strength_str) =>
      match pyFloat (pyStrip strength_str) with
      | none => .error (.valueError "strength must be a float.")
      | some st =>
        if st < 0 then .error (.valueError "Strength cannot be negative.")
        else .ok (pyStrip g1, st)
  let g := gs.1
  let strength := gs.2
  match splitFirstChar ':' g with
  | some (r0, r1) => do
    let start_index ← LatentKeyframeGroupNodeImport.convert_to_index_int
      (pyStrip r0) latent_count true allow_negative
    let end_index ← LatentKeyframeGroupNodeImport.convert_to_index_int
      (pyStrip r1) latent_count true allow_negative
    match pySlice all_indeces start_index end_index with
    | [] => .ok chosen
    | _ :: _ => .error (.nameError "name LatentKeyframImport is not defined")
  | none => do
    let idx ← LatentKeyframeGroupNodeImport.convert_to_index_int
      g latent_count false allow_negative
    .ok (setAdd chosen ⟨idx, strength⟩)

/-- `LatentKeyframeGroupNodeImport.convert_to_latent_keyframes`
(lines 80–112): split the input on commas, strip each group, and process the
groups left to right, failing fast on the first bad group. -/
def LatentKeyframeGroupNodeImport.convert_to_latent_keyframes
    (latent_indeces : String) (latent_count : Int) :
    Except PyError (List LatentKeyframeImport) :=
  if latent_indeces.isEmpty then .ok []
  else
    let all_indeces : List Int := (List.range latent_count.toNat).map Int.ofNat
    let allow_negative := decide (latent_count > 0)
    let groups := (splitOnChar ',' latent_indeces.toList).map pyStrip
    groups.foldlM
      (LatentKeyframeGroupNodeImport.processGroup latent_count all_indeces allow_negative) []

/-- The `latent_count` computed by `load_keyframes` (lines 122–124): the frame
count of the optional latent batch, `-1` when absent. -/
def latentCountOf : Option Nat → Int
  | none => -1
  | some n => n

/-- `LatentKeyframeGroupNodeImport.load_keyframes` (lines 114–134): parse the
string into keyframes, add them into a fresh collection, then fold in every
keyframe of the previous collection.  The previous collection is only
iterated, never mutated. -/
def LatentKeyframeGroupNodeImport.load_keyframes (index_strengths : String)
    (prev_latent_keyframe : Option LatentKeyframeGroupImport)
    (latent_image_opt : Option Nat) : Except PyError LatentKeyframeGroupImport :=
  let prev := groupOrFresh prev_latent_keyframe
  let latent_count := latentCountOf latent_image_opt
  match LatentKeyframeGroupNodeImport.convert_to_latent_keyframes index_strengths latent_count with
  | .error e => .error e
  | .ok latent_keyframes =>
    let curr := latent_keyframes.foldl LatentKeyframeGroupImport.add ⟨[]⟩
    .ok (prev.keyframes.foldl LatentKeyframeGroupImport.add curr)

/-! ### `LatentKeyframeInterpolationNodeImport`: the curve generator -/

/-- The four interpolation shapes declared by the node's input interface
(line 146). -/
inductive Interp where
  | linear
  | ease_in
  | ease_out
  | ease_in_out
  deriving Repr, DecidableEq

/-- `np.linspace(a, b, num)` over `ℚ`: `num` evenly spaced points from `a` to
`b` inclusive (empty for `num = 0`, just `[a]` for `num = 1`). -/
def np_linspace (a b : ℚ) (num : Nat) : List ℚ :=
  if num = 0 then []
  else if num = 1 then [a]
  else (List.range num).map (fun (i : Nat) => a + (b - a) * (i : ℚ) / ((num : ℚ) - 1))

/-- The two endpoint validations of `load_keyframe` (lines 178–182). -/
def curveValidate (batch_index_from batch_index_to_excl : Int) : Except PyError Unit :=
  if batch_index_from > batch_index_to_excl then
    .error (.valueError "batch_index_from must be less than or equal to batch_index_to.")
  else if batch_index_from < 0 ∧ batch_index_to_excl ≥ 0 then
    .error (.valueError "batch_index_from and batch_index_to must be either both positive or both negative.")
  else .ok ()

/-- The weight computation per shape (lines 193–200).  `np.cos` applied to
`index * np.pi` is a floating-point transcendental; it is abstracted as the
function parameter `cos_pi` (sending `t` to `cos(t·π)`), over which every
theorem below is universally quantified. -/
def interpWeights (cos_pi : ℚ → ℚ) (interpolation : Interp)
    (strength_from strength_to diff : ℚ) (index : List ℚ) : List ℚ :=
  match interpolation with
  | .linear => np_linspace strength_from strength_to index.length
  | .ease_in => index.map (fun t => diff * t ^ 2 + strength_from)
  | .ease_out => index.map (fun t => diff * (1 - (1 - t) ^ 2) + strength_from)
  | .ease_in_out => index.map (fun t => diff * ((1 - cos_pi t) / 2) + strength_from)

/-- The negative-start dropper (lines 208–212): for a negative window start,
drop the first `abs(batch_index_from)` (weight, frame) pairs. -/
def dropNegStart (batch_index_from : Int) (wf : List ℚ × List Int) :
    List ℚ × List Int :=
  if batch_index_from < 0 then
    (wf.1.drop batch_index_from.natAbs, wf.2.drop batch_index_from.natAbs)
  else wf

/-- The excess-tail dropper (lines 214–218): when the window end exceeds
`last_key_frame_position`, drop the last `batch_index_to_excl -
last_key_frame_position` (weight, frame) pairs (`xs[:-d]` empties the list
when `d ≥ len`). -/
def dropExcessTail (batch_index_to_excl last_key_frame_position : Int)
    (wf : List ℚ × List Int) : List ℚ × List Int :=
  if batch_index_to_excl > last_key_frame_position then
    let d := (batch_index_to_excl - last_key_frame_position).toNat
    (wf.1.take (wf.1.length - d), wf.2.take (wf.2.length - d))
  else wf

/-- Lines 188–218 of `load_keyframe`: progress sequence, per-shape weights,
optional midpoint reversal, consecutive frame numbers starting at
`batch_index_from`, then the two droppers.  (Reached only after the endpoint
validation, so `steps ≥ 0`.) -/
def curvePoints (cos_pi : ℚ → ℚ) (batch_index_from batch_index_to_excl : Int)
    (strength_from strength_to : ℚ) (interpolation : Interp)
    (revert_direction_at_midpoint : Bool) (last_key_frame_position : Int) :
    List ℚ × List Int :=
  let steps := batch_index_to_excl - batch_index_from
  let diff := strength_to - strength_from
  let index :=
    if revert_direction_at_midpoint then np_linspace 0 1 (steps.toNat / 2 + 1)
    else np_linspace 0 1 steps.toNat
  let weights := interpWeights cos_pi interpolation strength_from strength_to diff index
  let weights :=
    if revert_direction_at_midpoint then weights ++ weights.reverse else weights
  let frame_numbers : List Int :=
    (List.range weights.length).map (fun (i : Nat) => batch_index_from + (i : Int))
  dropExcessTail batch_index_to_excl last_key_frame_position
    (dropNegStart batch_index_from (weights, frame_numbers))

/-- `LatentKeyframeInterpolationNodeImport.load_keyframe` (lines 158–231):
validate the endpoints, generate the curve, re-anchor to the first remaining
frame number (`frame_numbers[0]` — an `IndexError` when nothing remains),
build one keyframe per remaining point into a fresh collection, then fold in
the previous collection.  The weight list always has the same length as the
frame list, so the `getD` default is never consulted. -/
def LatentKeyframeInterpolationNodeImport.load_keyframe (cos_pi : ℚ → ℚ)
    (batch_index_from : Int) (strength_from : ℚ)
    (batch_index_to_excl : Int) (strength_to : ℚ)
    (interpolation : Interp) (revert_direction_at_midpoint : Bool)
    (last_key_frame_position : Int)
    (prev_latent_keyframe : Option LatentKeyframeGroupImport) :
    Except PyError LatentKeyframeGroupImport :=
  match curveValidate batch_index_from batch_index_to_excl with
  | .error e => .error e
  | .ok _ =>
    let prev := groupOrFresh prev_latent_keyframe
    let wf := curvePoints cos_pi batch_index_from batch_index_to_excl
      strength_from strength_to interpolation revert_direction_at_midpoint
      last_key_frame_position
    match wf.2 with
    | [] => .error (.indexError "index 0 is out of bounds for axis 0 with size 0")
    | f0 :: rest =>
      let curr := (List.range (f0 :: rest).length).foldl
        (fun (c : LatentKeyframeGroupImport) (i : Nat) => c.add ⟨f0 + (i : Int), wf.1.getD i 0⟩)
        (⟨[]⟩ : LatentKeyframeGroupImport)
      .ok (prev.keyframes.foldl LatentKeyframeGroupImport.add curr)

/-! ### `LatentKeyframeBatchedGroupNodeImport`: the batched loader -/

/-- The runtime type inspection of the batched loader's `strengths` argument
(lines 256–265): a bare `float`/`int` scalar, an iterable of floats, or
anything else (carrying the name of the received type for the error
message). -/
inductive StrengthsInput where
  | scalar (x : ℚ)
  | iterable (xs : List ℚ)
  | other (tyName : String)
  deriving Repr

/-- `LatentKeyframeBatchedGroupNodeImport.load_keyframe` (lines 250–271): a
scalar generates nothing, an iterable generates one keyframe per position
(`index = position`, `strength = value`) into a fresh collection, anything
else raises a `ValueError` naming the received type; finally the previous
collection is folded in. -/
def LatentKeyframeBatchedGroupNodeImport.load_keyframe (strengths : StrengthsInput)
    (prev_latent_keyframe : Option LatentKeyframeGroupImport) :
    Except PyError LatentKeyframeGroupImport :=
  let prev := groupOrFresh prev_latent_keyframe
  match strengths with
  | .scalar _ =>
    .ok (prev.keyframes.foldl LatentKeyframeGroupImport.add ⟨[]⟩)
  | .iterable xs =>
    let curr := xs.enum.foldl (fun c p => c.add ⟨(p.1 : Int), p.2⟩) ⟨[]⟩
    .ok (prev.keyframes.foldl LatentKeyframeGroupImport.add curr)
  | .other tyName =>
    .error (.valueError ("Expected strengths to be an iterable input, but was " ++ tyName ++ "."))

/-! ### `LatentKeyframeNodeImport`: the single-add entrypoint -/

/-- `LatentKeyframeNodeImport.load_keyframe` (lines 27–35): unlike the other
entrypoints this one calls `add` on the supplied previous collection itself
and returns it.  The in-place mutation is made explicit by returning a pair:
the first component is the returned collection, the second is the state of
the caller's `prev_latent_keyframe` argument after the call (`none` when no
collection was supplied). -/
def LatentKeyframeNodeImport.load_keyframe (batch_index : Int) (strength : ℚ)
    (prev_latent_keyframe : Option LatentKeyframeGroupImport) :
    LatentKeyframeGroupImport × Option LatentKeyframeGroupImport :=
  match prev_latent_keyframe with
  | none => (LatentKeyframeGroupImport.add ⟨[]⟩ ⟨batch_index, strength⟩, none)
  | some p =>
    if p.keyframes.isEmpty then
      (LatentKeyframeGroupImport.add ⟨[]⟩ ⟨batch_index, strength⟩, some p)
    else
      (p.add ⟨batch_index, strength⟩, some (p.add ⟨batch_index, strength⟩))

/-! ### Helper lemmas -/

/-- A supplied (`some`) previous collection is used as-is by the falsy check:
replacing an empty one by a fresh empty one is the identity on values. -/
theorem groupOrFresh_some (p : LatentKeyframeGroupImport) : groupOrFresh (some p) = p := by
  cases p with
  | mk l => cases l <;> rfl

/-- First-writer-wins: `add` does not change the entry stored at an
already-occupied index. -/
theorem LatentKeyframeGroupImport.get_add_of_isSome (c : LatentKeyframeGroupImport)
    (k : LatentKeyframeImport) (idx : Int) (h : (c.get idx).isSome) :
    (c.add k).get idx = c.get idx := by
  unfold LatentKeyframeGroupImport.add
  split
  · rfl
  · unfold LatentKeyframeGroupImport.get at h ⊢
    obtain ⟨v, hv⟩ := Option.isSome_iff_exists.mp h
    simp only [List.find?_append, hv, Option.or_some]

/-- First-writer-wins, folded: folding any list of keyframes into a
collection via `add` never changes an already-occupied index. -/
theorem LatentKeyframeGroupImport.get_foldl_add_of_isSome
    (ks : List LatentKeyframeImport) (c : LatentKeyframeGroupImport) (idx : Int)
    (h : (c.get idx).isSome) :
    (ks.foldl LatentKeyframeGroupImport.add c).get idx = c.get idx := by
  induction ks generalizing c with
  | nil => rfl
  | cons k ks ih =>
    simp only [List.foldl_cons]
    have hk := LatentKeyframeGroupImport.get_add_of_isSome c k idx h
    rw [ih (c.add k) (by rw [hk]; exact h), hk]

/-- `add` at an index absent from the collection appends the keyframe. -/
theorem LatentKeyframeGroupImport.add_of_fresh (c : LatentKeyframeGroupImport)
    (k : LatentKeyframeImport) (h : ∀ k2 ∈ c.keyframes, k2.batch_index ≠ k.batch_index) :
    c.add k = ⟨c.keyframes ++ [k]⟩ := by
  unfold LatentKeyframeGroupImport.add
  rw [if_neg]
  simp only [List.any_eq_true, beq_iff_eq, not_exists, not_and]
  exact h

/-- Folding an enumeration (indices `n, n+1, …`) into a collection whose
indices are all below `n` appends one keyframe per position, in order. -/
theorem foldl_add_enumFrom (xs : List ℚ) (n : Nat) (c : LatentKeyframeGroupImport)
    (h : ∀ k ∈ c.keyframes, k.batch_index < (n : Int)) :
    (List.enumFrom n xs).foldl (fun c2 p => c2.add ⟨(p.1 : Int), p.2⟩) c =
      ⟨c.keyframes ++ (List.enumFrom n xs).map (fun p => ⟨(p.1 : Int), p.2⟩)⟩ := by
  induction xs generalizing n c with
  | nil => simp [List.enumFrom]
  | cons x xs ih =>
    simp only [List.enumFrom, List.foldl_cons, List.map_cons]
    rw [LatentKeyframeGroupImport.add_of_fresh c ⟨(n : Int), x⟩
      (fun k2 hmem => by have := h k2 hmem; simp only []; omega)]
    rw [ih (n + 1) _ ?_]
    · simp
    · intro k hk
      simp only [List.mem_append, List.mem_singleton] at hk
      rcases hk with hk | hk
      · have := h k hk; push_cast; omega
      · subst hk; push_cast; omega

/-- `np_linspace` produces exactly `num` points. -/
theorem np_linspace_length (a b : ℚ) (num : Nat) : (np_linspace a b num).length = num := by
  unfold np_linspace
  split
  · next h => simp [h]
  · split
    · next h => simp_all
    · rw [List.length_map, List.length_range]

/-- Every interpolation shape maps an empty progress sequence to an empty
weight list. -/
theorem interpWeights_nil (cos_pi : ℚ → ℚ) (interpolation : Interp) (sf st d : ℚ) :
    interpWeights cos_pi interpolation sf st d [] = [] := by
  cases interpolation <;> simp [interpWeights, np_linspace]

/-- Every interpolation shape produces one weight per progress point. -/
theorem interpWeights_length (cos_pi : ℚ → ℚ) (interpolation : Interp) (sf st d : ℚ)
    (index : List ℚ) :
    (interpWeights cos_pi interpolation sf st d index).length = index.length := by
  cases interpolation <;> simp [interpWeights, np_linspace_length]

/-- The negative-start dropper sends empty lists to empty lists. -/
theorem dropNegStart_nil (i : Int) : dropNegStart i ([], []) = ([], []) := by
  unfold dropNegStart
  split <;> simp

/-- The excess-tail dropper sends empty lists to empty lists. -/
theorem dropExcessTail_nil (a b : Int) : dropExcessTail a b ([], []) = ([], []) := by
  unfold dropExcessTail
  split <;> simp

/-- A zero-width window (`batch_index_to_excl = batch_index_from`, no revert)
generates no points at all. -/
theorem curvePoints_self (cos_pi : ℚ → ℚ) (i : Int) (sf st : ℚ) (interpolation : Interp)
    (last : Int) :
    curvePoints cos_pi i i sf st interpolation false last = ([], []) := by
  unfold curvePoints
  simp only [sub_self, Int.toNat_zero, Bool.false_eq_true, if_false]
  rw [show np_linspace 0 1 0 = [] from rfl, interpWeights_nil]
  simp [dropNegStart_nil, dropExcessTail_nil]

/-- The two endpoint validations pass whenever the endpoints are ordered and
not of mixed sign. -/
theorem curveValidate_ok (a b : Int) (h1 : a ≤ b)
    (h2 : (0 ≤ a ∧ 0 ≤ b) ∨ (a < 0 ∧ b < 0)) :
    curveValidate a b = .ok () := by
  unfold curveValidate
  rw [if_neg (by omega), if_neg (by omega)]

/-- The excess-tail dropper preserves an already-empty frame list. -/
theorem dropExcessTail_snd_nil (a b : Int) (wf : List ℚ × List Int) (h : wf.2 = []) :
    (dropExcessTail a b wf).2 = [] := by
  unfold dropExcessTail
  split <;> simp [h]

/-- A window that ends before frame 0 (both endpoints negative, no revert) is
entirely consumed by the negative-start dropper: no frame survives. -/
theorem curvePoints_neg_window_empty (cos_pi : ℚ → ℚ) (a b : Int) (sf st : ℚ)
    (interpolation : Interp) (last : Int) (h1 : a ≤ b) (h2 : b < 0) :
    (curvePoints cos_pi a b sf st interpolation false last).2 = [] := by
  unfold curvePoints
  simp only [Bool.false_eq_true, if_false]
  apply dropExcessTail_snd_nil
  unfold dropNegStart
  rw [if_pos (by omega)]
  apply List.drop_eq_nil_of_le
  rw [List.length_map, List.length_range, interpWeights_length, np_linspace_length]
  omega

/-- Folding an enumeration into the empty collection stores exactly one
keyframe per position, in order. -/
theorem foldl_add_enum (xs : List ℚ) :
    xs.enum.foldl (fun c2 p => c2.add ⟨(p.1 : Int), p.2⟩)
        (⟨[]⟩ : LatentKeyframeGroupImport) =
      ⟨xs.enum.map (fun p => ⟨(p.1 : Int), p.2⟩)⟩ := by
  have h := foldl_add_enumFrom xs 0 ⟨[]⟩ (fun k hk => by cases hk)
  simpa using h

/-! ### Claim theorems -/

/-- Claim C1 (code bug in the range branch): parsing the range group `"2:5"`
with `latent_count = 10` does not yield keyframes 2, 3, 4 — the loop body of
the range branch (line 108) references the undefined name `LatentKeyframImport`
and raises a `NameError` on its first iteration.  The second conjunct shows
the slice the loop would have walked is exactly `[2, 3, 4]`, so the claimed
expansion is what the code would produce were the constructor name spelled
`LatentKeyframeImport`. -/
theorem C1_range_branch_name_error :
    LatentKeyframeGroupNodeImport.convert_to_latent_keyframes "2:5" 10 =
      .error (.nameError "name LatentKeyframImport is not defined") ∧
    pySlice ((List.range (10 : Int).toNat).map Int.ofNat) 2 5 = [2, 3, 4] :=
  ⟨by with_unfolding_all rfl, by with_unfolding_all rfl⟩

/-- Claim C2, counterexample: with `index_from = index_to_excl = 0` (steps = 0,
revert off, validation passes) the curve entrypoint does not return normally
with an empty generated curve — it raises an `IndexError` at the re-anchoring
step `frame_numbers[0]`. -/
theorem C2_counterexample_zero_steps :
    LatentKeyframeInterpolationNodeImport.load_keyframe (fun _ => 0) 0 0 0 1 .linear
        false 0 none =
      .error (.indexError "index 0 is out of bounds for axis 0 with size 0") := by
  with_unfolding_all rfl

/-- Claim C2, amended: for every curve input with `revert_direction_at_midpoint`
off and `index_from = index_to_excl` (steps = 0), the generated curve is empty
and the entrypoint then raises an `IndexError` at the re-anchoring step
`frame_numbers[0]` instead of returning the previous collection. -/
theorem C2_zero_steps_raises_index_error (cos_pi : ℚ → ℚ) (i : Int) (sf st : ℚ)
    (interpolation : Interp) (last : Int) (prev : Option LatentKeyframeGroupImport) :
    LatentKeyframeInterpolationNodeImport.load_keyframe cos_pi i sf i st interpolation
        false last prev =
      .error (.indexError "index 0 is out of bounds for axis 0 with size 0") := by
  unfold LatentKeyframeInterpolationNodeImport.load_keyframe
  rw [curveValidate_ok i i le_rfl (by omega), curvePoints_self]

/-- Claim C3: the parsed-string, curve and batched entrypoints each return a
fresh collection built by adding the freshly generated keyframes first and
then folding every keyframe of the previous collection in via `add`; as a
consequence of first-writer-wins, any index already occupied by a generated
keyframe keeps the generated entry. -/
theorem C3_fresh_alloc_generated_first_then_prev :
    (∀ (s : String) (prev : LatentKeyframeGroupImport) (cnt : Option Nat)
        (gen : List LatentKeyframeImport),
      LatentKeyframeGroupNodeImport.convert_to_latent_keyframes s (latentCountOf cnt) = .ok gen →
      LatentKeyframeGroupNodeImport.load_keyframes s (some prev) cnt =
        .ok (prev.keyframes.foldl LatentKeyframeGroupImport.add
          (gen.foldl LatentKeyframeGroupImport.add ⟨[]⟩)) ∧
      ∀ (idx : Int) (k : LatentKeyframeImport),
        (gen.foldl LatentKeyframeGroupImport.add
          (⟨[]⟩ : LatentKeyframeGroupImport)).get idx = some k →
        (prev.keyframes.foldl LatentKeyframeGroupImport.add
          (gen.foldl LatentKeyframeGroupImport.add ⟨[]⟩)).get idx = some k) ∧
    (∀ (cos_pi : ℚ → ℚ) (a b : Int) (sf st : ℚ) (interpolation : Interp) (revert : Bool)
        (last : Int) (prev : LatentKeyframeGroupImport) (ws : List ℚ) (f0 : Int)
        (rest : List Int),
      curveValidate a b = .ok () →
      curvePoints cos_pi a b sf st interpolation revert last = (ws, f0 :: rest) →
      LatentKeyframeInterpolationNodeImport.load_keyframe cos_pi a sf b st interpolation
          revert last (some prev) =
        .ok (prev.keyframes.foldl LatentKeyframeGroupImport.add
          ((List.range (f0 :: rest).length).foldl
            (fun (c : LatentKeyframeGroupImport) (i : Nat) => c.add ⟨f0 + (i : Int), ws.getD i 0⟩)
            ⟨[]⟩)) ∧
      ∀ (idx : Int) (k : LatentKeyframeImport),
        ((List.range (f0 :: rest).length).foldl
          (fun (c : LatentKeyframeGroupImport) (i : Nat) => c.add ⟨f0 + (i : Int), ws.getD i 0⟩)
          (⟨[]⟩ : LatentKeyframeGroupImport)).get idx = some k →
        (prev.keyframes.foldl LatentKeyframeGroupImport.add
          ((List.range (f0 :: rest).length).foldl
            (fun (c : LatentKeyframeGroupImport) (i : Nat) => c.add ⟨f0 + (i : Int), ws.getD i 0⟩)
            ⟨[]⟩)).get idx = some k) ∧
    (∀ (xs : List ℚ) (prev : LatentKeyframeGroupImport),
      LatentKeyframeBatchedGroupNodeImport.load_keyframe (.iterable xs) (some prev) =
        .ok (prev.keyframes.foldl LatentKeyframeGroupImport.add
          (xs.enum.foldl (fun c2 p => c2.add ⟨(p.1 : Int), p.2⟩) ⟨[]⟩)) ∧
      ∀ (idx : Int) (k : LatentKeyframeImport),
        (xs.enum.foldl (fun c2 p => c2.add ⟨(p.1 : Int), p.2⟩)
          (⟨[]⟩ : LatentKeyframeGroupImport)).get idx = some k →
        (prev.keyframes.foldl LatentKeyframeGroupImport.add
          (xs.enum.foldl (fun c2 p => c2.add ⟨(p.1 : Int), p.2⟩) ⟨[]⟩)).get idx = some k) := by
  refine ⟨?_, ?_, ?_⟩
  · intro s prev cnt gen hgen
    constructor
    · simp only [LatentKeyframeGroupNodeImport.load_keyframes, groupOrFresh_some, hgen]
    · intro idx k hk
      rw [LatentKeyframeGroupImport.get_foldl_add_of_isSome _ _ _ (by rw [hk]; rfl)]
      exact hk
  · intro cos_pi a b sf st interpolation revert last prev ws f0 rest hv hw
    constructor
    · simp only [LatentKeyframeInterpolationNodeImport.load_keyframe, hv, hw, groupOrFresh_some]
    · intro idx k hk
      rw [LatentKeyframeGroupImport.get_foldl_add_of_isSome _ _ _ (by rw [hk]; rfl)]
      exact hk
  · intro xs prev
    constructor
    · simp only [LatentKeyframeBatchedGroupNodeImport.load_keyframe, groupOrFresh_some]
    · intro idx k hk
      rw [LatentKeyframeGroupImport.get_foldl_add_of_isSome _ _ _ (by rw [hk]; rfl)]
      exact hk

/-- Witness for C3: concrete instances of all three entrypoints — parsing
`"1"` against previous collection with index 1 at strength 2, a one-point
linear curve against a colliding previous collection, and a one-element batch
against a colliding previous collection. -/
theorem C3_fresh_alloc_generated_first_then_prev_witness :
    LatentKeyframeGroupNodeImport.load_keyframes "1" (some ⟨[⟨1, 2⟩]⟩) none =
      .ok ((⟨[⟨1, 2⟩]⟩ : LatentKeyframeGroupImport).keyframes.foldl
        LatentKeyframeGroupImport.add
        ([(⟨1, 1⟩ : LatentKeyframeImport)].foldl LatentKeyframeGroupImport.add ⟨[]⟩)) ∧
    LatentKeyframeInterpolationNodeImport.load_keyframe (fun _ => 0) 0 0 1 1 .linear false 1
        (some ⟨[⟨0, 5⟩]⟩) =
      .ok ((⟨[⟨0, 5⟩]⟩ : LatentKeyframeGroupImport).keyframes.foldl
        LatentKeyframeGroupImport.add
        ((List.range ((0 : Int) :: ([] : List Int)).length).foldl
          (fun (c : LatentKeyframeGroupImport) (i : Nat) =>
            c.add ⟨0 + (i : Int), [(0 : ℚ)].getD i 0⟩)
          ⟨[]⟩)) ∧
    LatentKeyframeBatchedGroupNodeImport.load_keyframe (.iterable [3]) (some ⟨[⟨0, 7⟩]⟩) =
      .ok ((⟨[⟨0, 7⟩]⟩ : LatentKeyframeGroupImport).keyframes.foldl
        LatentKeyframeGroupImport.add
        (([(3 : ℚ)].enum).foldl (fun c2 p => c2.add ⟨(p.1 : Int), p.2⟩) ⟨[]⟩)) :=
  ⟨(C3_fresh_alloc_generated_first_then_prev.1 "1" ⟨[⟨1, 2⟩]⟩ none [⟨1, 1⟩]
      (by with_unfolding_all rfl)).1,
   (C3_fresh_alloc_generated_first_then_prev.2.1 (fun _ => 0) 0 1 0 1 .linear false 1
      ⟨[⟨0, 5⟩]⟩ [0] 0 [] (by with_unfolding_all rfl) (by with_unfolding_all rfl)).1,
   (C3_fresh_alloc_generated_first_then_prev.2.2 [3] ⟨[⟨0, 7⟩]⟩).1⟩

/-- Claim C4: plain (non-range) index validation with
`allow_negative = (latent_count > 0)` as set by `convert_to_latent_keyframes`:
an index beyond `latent_count - 1` (when the count is known) is an
out-of-range `IndexError`; a negative index is rejected exactly when
`latent_count ≤ 0`; an allowed negative index resolves to
`latent_count + index`, failing when the conversion is still negative.
Concretely, parsing `"-1"` with `latent_count = 5` yields index 4 at strength
1.0 and parsing `"-1"` with `latent_count = -1` fails with a range error. -/
theorem C4_plain_index_validation :
    (∀ i c : Int, c > 0 → i > c - 1 →
      LatentKeyframeGroupNodeImport.validate_index i c false (decide (c > 0)) =
        .error (.indexError "Index out of range for the total latents.")) ∧
    (∀ i c : Int, i < 0 → c ≤ 0 →
      LatentKeyframeGroupNodeImport.validate_index i c false (decide (c > 0)) =
        .error (.indexError "Negative indeces not allowed.")) ∧
    (∀ i c : Int, i < 0 → c > 0 → 0 ≤ c + i →
      LatentKeyframeGroupNodeImport.validate_index i c false (decide (c > 0)) = .ok (c + i)) ∧
    (∀ i c : Int, i < 0 → c > 0 → c + i < 0 →
      LatentKeyframeGroupNodeImport.validate_index i c false (decide (c > 0)) =
        .error (.indexError "Index converted out of range for the total latents.")) ∧
    LatentKeyframeGroupNodeImport.convert_to_latent_keyframes "-1" 5 = .ok [⟨4, 1⟩] ∧
    LatentKeyframeGroupNodeImport.convert_to_latent_keyframes "-1" (-1) =
      .error (.indexError "Negative indeces not allowed.") := by
  refine ⟨?_, ?_, ?_, ?_, by with_unfolding_all rfl, by with_unfolding_all rfl⟩
  · intro i c h1 h2
    unfold LatentKeyframeGroupNodeImport.validate_index
    rw [if_neg (by simp), if_pos ⟨h1, h2⟩]
  · intro i c h1 h2
    unfold LatentKeyframeGroupNodeImport.validate_index
    rw [if_neg (by simp), if_neg (by omega), if_pos h1, if_pos (by simp; omega)]
  · intro i c h1 h2 h3
    unfold LatentKeyframeGroupNodeImport.validate_index
    rw [if_neg (by simp), if_neg (by omega), if_pos h1, if_neg (by simp; omega),
      if_neg (by omega)]
  · intro i c h1 h2 h3
    unfold LatentKeyframeGroupNodeImport.validate_index
    rw [if_neg (by simp), if_neg (by omega), if_pos h1, if_neg (by simp; omega),
      if_pos (by omega)]

/-- Witness for C4: index 7 overflows a batch of 5; index -1 is rejected when
the count is unknown; index -1 resolves to 4 in a batch of 5; index -7 still
converts to a negative index in a batch of 5. -/
theorem C4_plain_index_validation_witness :
    LatentKeyframeGroupNodeImport.validate_index 7 5 false (decide ((5 : Int) > 0)) =
      .error (.indexError "Index out of range for the total latents.") ∧
    LatentKeyframeGroupNodeImport.validate_index (-1) (-1) false (decide ((-1 : Int) > 0)) =
      .error (.indexError "Negative indeces not allowed.") ∧
    LatentKeyframeGroupNodeImport.validate_index (-1) 5 false (decide ((5 : Int) > 0)) =
      .ok 4 ∧
    LatentKeyframeGroupNodeImport.validate_index (-7) 5 false (decide ((5 : Int) > 0)) =
      .error (.indexError "Index converted out of range for the total latents.") :=
  ⟨C4_plain_index_validation.1 7 5 (by decide) (by decide),
   C4_plain_index_validation.2.1 (-1) (-1) (by decide) (by decide),
   C4_plain_index_validation.2.2.1 (-1) 5 (by decide) (by decide) (by decide),
   C4_plain_index_validation.2.2.2.1 (-7) 5 (by decide) (by decide) (by decide)⟩

/-- Claim C5: the single-add entrypoint, given a non-empty previous
collection, adds the keyframe into that very collection and returns it: the
returned collection and the post-call state of the caller's argument coincide
(aliasing, no fresh allocation). -/
theorem C5_single_add_mutates_prev (idx : Int) (s : ℚ) (p : LatentKeyframeGroupImport)
    (h : p.keyframes ≠ []) :
    LatentKeyframeNodeImport.load_keyframe idx s (some p) =
      (p.add ⟨idx, s⟩, some (p.add ⟨idx, s⟩)) := by
  cases p with
  | mk l =>
    cases l with
    | nil => exact absurd rfl h
    | cons a as => rfl

/-- Witness for C5: adding index 4 into a non-empty collection holding
index 1. -/
theorem C5_single_add_mutates_prev_witness :
    LatentKeyframeNodeImport.load_keyframe 4 (1/2) (some ⟨[⟨1, 1⟩]⟩) =
      ((⟨[⟨1, 1⟩]⟩ : LatentKeyframeGroupImport).add ⟨4, 1/2⟩,
        some ((⟨[⟨1, 1⟩]⟩ : LatentKeyframeGroupImport).add ⟨4, 1/2⟩)) :=
  C5_single_add_mutates_prev 4 (1/2) ⟨[⟨1, 1⟩]⟩ (by decide)

/-- Claim C6: the batched loader with no previous collection maps an iterable
`[s0, …, s(n-1)]` to exactly the keyframes `(0, s0), …, (n-1, s(n-1))`; a bare
scalar produces an empty collection without error; any other input fails with
a `ValueError` naming the received type. -/
theorem C6_batched_loader_cases :
    (∀ xs : List ℚ,
      LatentKeyframeBatchedGroupNodeImport.load_keyframe (.iterable xs) none =
        .ok ⟨xs.enum.map (fun p => ⟨(p.1 : Int), p.2⟩)⟩) ∧
    (∀ x : ℚ,
      LatentKeyframeBatchedGroupNodeImport.load_keyframe (.scalar x) none = .ok ⟨[]⟩) ∧
    (∀ (t : String) (prev : Option LatentKeyframeGroupImport),
      LatentKeyframeBatchedGroupNodeImport.load_keyframe (.other t) prev =
        .error (.valueError
          ("Expected strengths to be an iterable input, but was " ++ t ++ "."))) := by
  refine ⟨?_, fun x => rfl, fun t prev => rfl⟩
  intro xs
  unfold LatentKeyframeBatchedGroupNodeImport.load_keyframe
  simp only [groupOrFresh, foldl_add_enum]
  rfl

/-- Claim C7: the curve entrypoint raises a `ValueError` whenever
`index_from > index_to_excl`, and a `ValueError` on either mixed-sign
configuration (a negative start with a non-negative end hits the explicit
mixed-sign check; a non-negative start with a negative end is caught by the
ordering check); when the endpoints are ordered and of uniform sign, both
validations pass. -/
theorem C7_endpoint_validation :
    (∀ (cos_pi : ℚ → ℚ) (a b : Int) (sf st : ℚ) (interpolation : Interp) (revert : Bool)
        (last : Int) (prev : Option LatentKeyframeGroupImport), a > b →
      LatentKeyframeInterpolationNodeImport.load_keyframe cos_pi a sf b st interpolation
          revert last prev =
        .error (.valueError "batch_index_from must be less than or equal to batch_index_to.")) ∧
    (∀ (cos_pi : ℚ → ℚ) (a b : Int) (sf st : ℚ) (interpolation : Interp) (revert : Bool)
        (last : Int) (prev : Option LatentKeyframeGroupImport), a < 0 → 0 ≤ b →
      LatentKeyframeInterpolationNodeImport.load_keyframe cos_pi a sf b st interpolation
          revert last prev =
        .error (.valueError
          "batch_index_from and batch_index_to must be either both positive or both negative.")) ∧
    (∀ (cos_pi : ℚ → ℚ) (a b : Int) (sf st : ℚ) (interpolation : Interp) (revert : Bool)
        (last : Int) (prev : Option LatentKeyframeGroupImport), 0 ≤ a → b < 0 →
      LatentKeyframeInterpolationNodeImport.load_keyframe cos_pi a sf b st interpolation
          revert last prev =
        .error (.valueError "batch_index_from must be less than or equal to batch_index_to.")) ∧
    (∀ a b : Int, a ≤ b → ((0 ≤ a ∧ 0 ≤ b) ∨ (a < 0 ∧ b < 0)) →
      curveValidate a b = .ok ()) := by
  refine ⟨?_, ?_, ?_, fun a b h1 h2 => curveValidate_ok a b h1 h2⟩
  · intro cos_pi a b sf st interpolation revert last prev h
    unfold LatentKeyframeInterpolationNodeImport.load_keyframe
    unfold curveValidate
    rw [if_pos h]
  · intro cos_pi a b sf st interpolation revert last prev h1 h2
    unfold LatentKeyframeInterpolationNodeImport.load_keyframe
    unfold curveValidate
    rw [if_neg (by omega), if_pos (by omega)]
  · intro cos_pi a b sf st interpolation revert last prev h1 h2
    unfold LatentKeyframeInterpolationNodeImport.load_keyframe
    unfold curveValidate
    rw [if_pos (by omega)]

/-- Witness for C7: endpoints (5, 2) are misordered; (-1, 2) is mixed-sign;
(0, -1) is mixed-sign the other way (caught by ordering); (0, 5) passes. -/
theorem C7_endpoint_validation_witness :
    LatentKeyframeInterpolationNodeImport.load_keyframe (fun _ => 0) 5 0 2 1 .linear
        false 0 none =
      .error (.valueError "batch_index_from must be less than or equal to batch_index_to.") ∧
    LatentKeyframeInterpolationNodeImport.load_keyframe (fun _ => 0) (-1) 0 2 1 .linear
        false 0 none =
      .error (.valueError
        "batch_index_from and batch_index_to must be either both positive or both negative.") ∧
    LatentKeyframeInterpolationNodeImport.load_keyframe (fun _ => 0) 0 0 (-1) 1 .linear
        false 0 none =
      .error (.valueError "batch_index_from must be less than or equal to batch_index_to.") ∧
    curveValidate 0 5 = .ok () :=
  ⟨C7_endpoint_validation.1 (fun _ => 0) 5 2 0 1 .linear false 0 none (by decide),
   C7_endpoint_validation.2.1 (fun _ => 0) (-1) 2 0 1 .linear false 0 none (by decide) (by decide),
   C7_endpoint_validation.2.2.1 (fun _ => 0) 0 (-1) 0 1 .linear false 0 none (by decide) (by decide),
   C7_endpoint_validation.2.2.2 0 5 (by decide) (Or.inl ⟨by decide, by decide⟩)⟩

/-- Claim C8: the linear curve from strength 0.0 to 1.0 over the window
`[0, 5)` with `last_key_frame_position = 5`, revert off and no previous
collection produces exactly the weights 0, 1/4, 1/2, 3/4, 1 at frames 0–4,
and those weights are non-decreasing.  The statement holds for every model of
`np.cos` since the linear shape never consults it. -/
theorem C8_linear_curve_exact_weights (cos_pi : ℚ → ℚ) :
    LatentKeyframeInterpolationNodeImport.load_keyframe cos_pi 0 0 5 1 .linear false 5 none =
      .ok ⟨[⟨0, 0⟩, ⟨1, 1/4⟩, ⟨2, 1/2⟩, ⟨3, 3/4⟩, ⟨4, 1⟩]⟩ ∧
    List.Chain' (fun x y => x ≤ y)
      (([⟨0, 0⟩, ⟨1, 1/4⟩, ⟨2, 1/2⟩, ⟨3, 3/4⟩, ⟨4, 1⟩] : List LatentKeyframeImport).map
        LatentKeyframeImport.strength) :=
  ⟨by with_unfolding_all rfl, by
    simp only [List.map_cons, List.map_nil, List.chain'_cons, List.chain'_singleton]
    norm_num⟩

/-- Claim C9, counterexample: the curve input `index_from = -2`,
`index_to_excl = 3`, `last_key_frame_position = 3` from the claim does not
drop 2 leading points and return 3 weights starting at frame 0 — it is
rejected by the mixed-sign endpoint validation before the dropper ever
runs. -/
theorem C9_counterexample_mixed_sign :
    LatentKeyframeInterpolationNodeImport.load_keyframe (fun _ => 0) (-2) 0 3 1 .linear
        false 3 none =
      .error (.valueError
        "batch_index_from and batch_index_to must be either both positive or both negative.") := by
  with_unfolding_all rfl

/-- Claim C9, amended: the negative-start dropper itself does remove exactly
the first `abs(index_from)` (weight, frame) pairs whenever `index_from < 0`;
an input reaching it must have both endpoints negative (else the mixed-sign
validation rejects).  The second conjunct exhibits this through the
entrypoint: `index_from = -5`, `index_to_excl = -1` with midpoint reversal
drops 5 leading points and the surviving curve starts at frame 0. -/
theorem C9_negative_start_dropper :
    (∀ (a : Int) (ws : List ℚ) (fs : List Int), a < 0 →
      dropNegStart a (ws, fs) = (ws.drop a.natAbs, fs.drop a.natAbs)) ∧
    LatentKeyframeInterpolationNodeImport.load_keyframe (fun _ => 0) (-5) 0 (-1) 1 .linear
        true 0 none =
      .ok ⟨[⟨0, 0⟩]⟩ := by
  refine ⟨?_, by with_unfolding_all rfl⟩
  intro a ws fs h
  unfold dropNegStart
  rw [if_pos h]

/-- Witness for C9: dropping at `index_from = -2` removes the 2 leading pairs
of a 3-point curve. -/
theorem C9_negative_start_dropper_witness :
    dropNegStart (-2) (([1, 2, 3] : List ℚ), ([5, 6, 7] : List Int)) =
      (([1, 2, 3] : List ℚ).drop (Int.natAbs (-2)),
        ([5, 6, 7] : List Int).drop (Int.natAbs (-2))) :=
  C9_negative_start_dropper.1 (-2) [1, 2, 3] [5, 6, 7] (by decide)

/-- Claim C10: whenever the endpoint validation passes but the two droppers
leave no (weight, frame) pair at all, the curve entrypoint raises an
`IndexError` at the re-anchoring step `frame_numbers[0]` instead of returning
a collection; in particular (second conjunct) every non-revert window with
both endpoints negative is emptied completely by the negative-start
dropper. -/
theorem C10_empty_after_droppers_raises :
    (∀ (cos_pi : ℚ → ℚ) (a b : Int) (sf st : ℚ) (interpolation : Interp) (revert : Bool)
        (last : Int) (prev : Option LatentKeyframeGroupImport),
      curveValidate a b = .ok () →
      (curvePoints cos_pi a b sf st interpolation revert last).2 = [] →
      LatentKeyframeInterpolationNodeImport.load_keyframe cos_pi a sf b st interpolation
          revert last prev =
        .error (.indexError "index 0 is out of bounds for axis 0 with size 0")) ∧
    (∀ (cos_pi : ℚ → ℚ) (a b : Int) (sf st : ℚ) (interpolation : Interp) (last : Int),
      a ≤ b → b < 0 →
      (curvePoints cos_pi a b sf st interpolation false last).2 = []) := by
  refine ⟨?_, fun cos_pi a b sf st interpolation last h1 h2 =>
    curvePoints_neg_window_empty cos_pi a b sf st interpolation last h1 h2⟩
  intro cos_pi a b sf st interpolation revert last prev hv he
  unfold LatentKeyframeInterpolationNodeImport.load_keyframe
  rw [hv]
  simp only [he]

/-- Witness for C10: the all-negative window `[-2, -1)` passes validation, is
emptied by the droppers, and the entrypoint raises the re-anchoring
`IndexError`. -/
theorem C10_empty_after_droppers_raises_witness :
    LatentKeyframeInterpolationNodeImport.load_keyframe (fun _ => 0) (-2) 0 (-1) 1 .linear
        false 3 none =
      .error (.indexError "index 0 is out of bounds for axis 0 with size 0") :=
  C10_empty_after_droppers_raises.1 (fun _ => 0) (-2) (-1) 0 1 .linear false 3 none
    (by with_unfolding_all rfl)
    (C10_empty_after_droppers_raises.2 (fun _ => 0) (-2) (-1) 0 1 .linear 3
      (by decide) (by decide))
